import Mathlib

/-!
Shallow embedding of the FC723 airline seat-booking program.

The core component is `PartB.py`: a seat table (one record per cabin
position) and a traveler table (one record per live booking), with
operations `initialize_database`, `generate_booking_reference`,
`book_seat`, `free_seat`, `check_availability` and `show_booking_status`.
The SQLite/SQLAlchemy session is modelled as an explicit state (`DB`)
holding the two tables as lists in insertion (rowid) order; an unordered
`query(...).first()` is modelled as `List.find?` over that order, which is
the order SQLite returns rows in absent an `ORDER BY`.  A transactional
commit that can fail (duplicate key) is modelled by an explicit check on
the pre-state: on success both pending changes are applied, on failure the
state is returned unchanged (rollback).  `random.choices` is modelled by
an explicit stream of draws, and the `while True` retry loop by fuel.

`PartA_4.py` (the earlier status-flag variant, relevant to claims about
`free_seat` on an unbooked seat) is embedded in namespace `PartA4`.
-/

namespace PartB

/-- The `type` column of the Seats table: Enum('seat', 'aisle', 'storage'). -/
inductive SeatType
  | seat
  | aisle
  | storage
deriving DecidableEq

/-- The `category` column of the Seats table: Enum('window', 'middle', 'aisle'). -/
inductive SeatCategory
  | window
  | middle
  | aisle
deriving DecidableEq

/-- One row of the `Seats` table (PartB.py, class Seat). -/
structure Seat where
  seat_id : String
  row : String
  position : Nat
  type : SeatType
  booking_reference : Option String
  category : Option SeatCategory
deriving DecidableEq

/-- One row of the `Travelers` table (PartB.py, class Traveler). -/
structure Traveler where
  booking_reference : String
  passport_number : String
  first_name : String
  last_name : String
  seat_row : String
  seat_column : Nat
deriving DecidableEq

/-- The database session state: both tables, rows in insertion (rowid) order. -/
structure DB where
  seats : List Seat
  travelers : List Traveler
deriving DecidableEq

/-- Python `str.strip()`: drop leading and trailing whitespace. -/
def pyStrip (s : String) : String :=
  String.mk (((s.toList.dropWhile Char.isWhitespace).reverse.dropWhile Char.isWhitespace).reverse)

/-- Python `str.upper()` on the ASCII inputs this program handles. -/
def pyUpper (s : String) : String :=
  String.mk (s.toList.map Char.toUpper)

/-- Row-label to category table of `Seat.initialize_database`
(PartB.py lines 50-57), including the `else` fallback to middle. -/
def rowCategory (row_label : String) : SeatCategory :=
  if row_label = "A" ∨ row_label = "F" then SeatCategory.window
  else if row_label = "B" ∨ row_label = "E" then SeatCategory.middle
  else if row_label = "C" ∨ row_label = "D" then SeatCategory.aisle
  else SeatCategory.middle

/-- Cell-marker to seat-type classification (PartB.py lines 60-64):
`X` is an aisle, `S` is storage, anything else a bookable seat. -/
def cellType (cell : String) : SeatType :=
  if cell = "X" then SeatType.aisle
  else if cell = "S" then SeatType.storage
  else SeatType.seat

/-- One record built by the initialization loop body (PartB.py lines 59-77):
seats get id `<row><idx>` and a category derived from the row; non-seats get
id `<row>-<idx>`, no category; nobody starts with a booking reference. -/
def mkSeat (row_label : String) (idx : Nat) (cell : String) : Seat :=
  let seat_type := cellType cell
  { seat_id :=
      if seat_type = SeatType.seat then row_label ++ toString idx
      else row_label ++ "-" ++ toString idx,
    row := row_label,
    position := idx,
    type := seat_type,
    booking_reference := none,
    category := if seat_type = SeatType.seat then some (rowCategory row_label) else none }

/-- `enumerate(positions, start=idx)` over the cells of one CSV row. -/
def initRowFrom (row_label : String) : Nat → List String → List Seat
  | _, [] => []
  | idx, cell :: rest => mkSeat row_label idx cell :: initRowFrom row_label (idx + 1) rest

/-- All seats generated from one CSV row (`enumerate(positions, start=1)`). -/
def initRow (row_label : String) (cells : List String) : List Seat :=
  initRowFrom row_label 1 cells

/-- All seats generated from the CSV file, in file order. -/
def initSeats (csv : List (String × List String)) : List Seat :=
  (csv.map (fun r => initRow r.1 r.2)).flatten

/-- `Seat.initialize_database` (PartB.py lines 37-84): populate only when the
seat table is empty; the single commit either inserts every generated seat or
(on an integrity error, e.g. colliding primary keys) rolls back to the empty
table.  The CSV file is modelled as a list of (row label, cells) pairs. -/
def initialize_database (csv : List (String × List String)) (db : DB) : DB :=
  if db.seats.length = 0 then
    let new := initSeats csv
    if (new.map Seat.seat_id).Nodup then { db with seats := new } else db
  else db

/-- The 36-symbol reference alphabet of `generate_booking_reference`:
`string.ascii_uppercase + string.digits`. -/
def reference_chars : List Char :=
  ("ABCDEFGHIJKLMNOPQRSTUVWXYZ0123456789").toList

/-- Character selected by one index into the alphabet. -/
def charAt (i : Fin 36) : Char :=
  reference_chars.getD i.val ('A')

/-- The candidate built by one call to `random.choices(chars, k=8)` followed
by `join`: the draw is the list of 8 chosen alphabet indices. -/
def drawToString (d : Fin 8 → Fin 36) : String :=
  String.mk ((List.finRange 8).map (fun k => charAt (d k)))

/-- The uniqueness check of `generate_booking_reference` (PartB.py line 127):
`query(Seat).filter_by(booking_reference=reference).first()` is truthy. -/
def referenceTaken (seats : List Seat) (reference : String) : Bool :=
  (seats.find? (fun s => decide (s.booking_reference = some reference))).isSome

/-- `generate_booking_reference` (PartB.py lines 99-131).  The `while True`
loop re-draws until the candidate is held by no seat; the random stream is the
explicit `draws` argument and the unbounded loop is given fuel (`none` models
non-termination, which the source accepts by design). -/
def generate_booking_reference (fuel : Nat) (draws : Nat → Fin 8 → Fin 36)
    (seats : List Seat) : Option String :=
  match fuel with
  | 0 => none
  | Nat.succ n =>
    let reference := drawToString (draws 0)
    if referenceTaken seats reference then
      generate_booking_reference n (fun k => draws (k + 1)) seats
    else
      some reference

/-- The availability filter of `book_seat` (PartB.py lines 171-174):
`Seat.category == category AND Seat.booking_reference == None`. -/
def seatMatches (c : SeatCategory) (s : Seat) : Bool :=
  decide (s.category = some c ∧ s.booking_reference = none)

/-- The seat-selection query of `book_seat` (PartB.py lines 171-174):
`.first()` on the unordered filtered query, i.e. the first match in
insertion (rowid) order. -/
def findAvailableByCategory (seats : List Seat) (c : SeatCategory) : Option Seat :=
  seats.find? (seatMatches c)

/-- In-place ORM mutation of the first record matching `p`: the object
returned by `.first()` is mutated, every other row is untouched. -/
def updateFirst {α : Type} (p : α → Bool) (g : α → α) : List α → List α
  | [] => []
  | s :: rest => if p s then g s :: rest else s :: updateFirst p g rest

/-- Outcome of `book_seat`, read off the printed messages. -/
inductive BookOutcome
  | noSeat
  | booked (seat_id : String) (reference : String)
  | duplicateReference
deriving DecidableEq

/-- Whether the commit of `book_seat` succeeds: the insert of a Traveler
keyed by `reference` and the update putting `reference` on a seat violate no
uniqueness constraint of the pre-state (Travelers primary key, Seats unique
`booking_reference`).  On failure the session is rolled back. -/
def bookCommitOk (db : DB) (reference : String) : Bool :=
  decide ((∀ t ∈ db.travelers, t.booking_reference ≠ reference) ∧
    (∀ s ∈ db.seats, s.booking_reference ≠ some reference))

/-- The Traveler record built by `book_seat` (PartB.py lines 190-197); the
three identity fields are the `input().strip()` values. -/
def mkTraveler (reference passport first_name last_name : String) (target : Seat) : Traveler :=
  { booking_reference := reference,
    passport_number := pyStrip passport,
    first_name := pyStrip first_name,
    last_name := pyStrip last_name,
    seat_row := target.row,
    seat_column := target.position }

/-- `book_seat` (PartB.py lines 156-205) after menu-choice parsing: find the
first available seat of the category, mint the reference (passed in here; it
is produced by `generate_booking_reference`, modelled separately because it
consumes randomness), set it on the seat, insert the Traveler, and commit;
an `IntegrityError` on commit rolls both changes back. -/
def book_seat (db : DB) (c : SeatCategory)
    (passport first_name last_name reference : String) : DB × BookOutcome :=
  match findAvailableByCategory db.seats c with
  | none => (db, BookOutcome.noSeat)
  | some target =>
    if bookCommitOk db reference then
      ({ seats := updateFirst (seatMatches c)
            (fun s => { s with booking_reference := some reference }) db.seats,
         travelers := db.travelers ++
            [mkTraveler reference passport first_name last_name target] },
       BookOutcome.booked target.seat_id reference)
    else
      (db, BookOutcome.duplicateReference)

/-- Outcome of `free_seat`, read off the printed messages. -/
inductive FreeOutcome
  | invalidReference
  | freed (seat_id : String)
deriving DecidableEq

/-- The row filter `booking_reference == reference`. -/
def holdsRef (reference : String) (s : Seat) : Bool :=
  decide (s.booking_reference = some reference)

/-- `free_seat` (PartB.py lines 208-221): normalize the input
(`.strip().upper()`), find the seat holding that reference, reject when none
exists or it is not of type seat; otherwise delete every Traveler keyed by
the reference and clear that seat's reference. -/
def free_seat (db : DB) (input : String) : DB × FreeOutcome :=
  let reference := pyUpper (pyStrip input)
  match db.seats.find? (holdsRef reference) with
  | none => (db, FreeOutcome.invalidReference)
  | some seat =>
    if seat.type = SeatType.seat then
      ({ seats := updateFirst (holdsRef reference)
            (fun s => { s with booking_reference := none }) db.seats,
         travelers := db.travelers.filter (fun t => decide (t.booking_reference ≠ reference)) },
       FreeOutcome.freed seat.seat_id)
    else (db, FreeOutcome.invalidReference)

/-- Python truthiness of an optional reference string (`if seat.booking_reference`):
`None` and the empty string are both falsy. -/
def refTruthy : Option String → Bool
  | none => false
  | some r => decide (r ≠ ("" : String))

/-- Availability of one seat record as `check_availability` (PartB.py lines
144-153) reports it: a bookable seat whose reference is falsy. -/
def seat_is_available (s : Seat) : Bool :=
  decide (s.type = SeatType.seat) && !(refTruthy s.booking_reference)

/-- Cell symbol of `show_booking_status` (PartB.py lines 231-238). -/
def seatSymbol (s : Seat) : String :=
  match s.type with
  | SeatType.aisle => " "
  | SeatType.storage => "S"
  | SeatType.seat => if refTruthy s.booking_reference then "R" else "F"

/-- `order_by(Seat.position)` over equal keys keeps rowid order: a stable
insertion sort on the position column. -/
def sortByPosition (seats : List Seat) : List Seat :=
  seats.insertionSort (fun a b => a.position ≤ b.position)

/-- The hard-coded row list of `show_booking_status` (PartB.py line 227). -/
def status_rows : List String :=
  [("A" : String), "B", "C", "D", "E", "F"]

/-- `show_booking_status` (PartB.py lines 224-239): for each of the rows
`A`..`F`, the seats of that row in position order, rendered to symbols. -/
def show_booking_status (db : DB) : List (String × List String) :=
  status_rows.map (fun r =>
    (r, (sortByPosition (db.seats.filter (fun s => decide (s.row = r)))).map seatSymbol))

/-- One user-driven mutating operation of the CLI loop. -/
inductive Op
  | book (c : SeatCategory) (passport first_name last_name reference : String)
  | free (input : String)

/-- State transition of one operation (outcome discarded). -/
def applyOp (db : DB) : Op → DB
  | Op.book c p f l r => (book_seat db c p f l r).1
  | Op.free input => (free_seat db input).1

/-- A whole session: the operations applied in order. -/
def runOps (db : DB) (ops : List Op) : DB :=
  ops.foldl applyOp db

/-- Invariants I1 and I2 (with the inverse of I2) for one record: a non-seat
carries neither a booking reference nor a category, a seat carries a category. -/
def SeatInv (s : Seat) : Prop :=
  (s.type ≠ SeatType.seat → s.booking_reference = none ∧ s.category = none) ∧
  (s.type = SeatType.seat → s.category ≠ none)

/-- The seat-map invariant: every record satisfies `SeatInv`. -/
def MapInv (db : DB) : Prop :=
  ∀ s ∈ db.seats, SeatInv s

instance (s : Seat) : Decidable (SeatInv s) := by
  unfold SeatInv; infer_instance

instance (db : DB) : Decidable (MapInv db) := by
  unfold MapInv; infer_instance

/-- Lexicographic strict order on character lists (by code point), used to
spell out the natural order on row labels. -/
def listLtb : List Char → List Char → Bool
  | [], [] => false
  | [], _ :: _ => true
  | _ :: _, [] => false
  | a :: as, b :: bs =>
    if a.toNat < b.toNat then true
    else if a.toNat = b.toNat then listLtb as bs else false

/-- Display order on seats: lower row label first, then lower position. -/
def displayLT (s t : Seat) : Prop :=
  listLtb s.row.toList t.row.toList = true ∨ (s.row = t.row ∧ s.position < t.position)

instance (s t : Seat) : Decidable (displayLT s t) := by
  unfold displayLT; infer_instance

end PartB

namespace PartA4

/-- The `status` column of PartA_4's Seats table: Enum('F', 'R'), nullable. -/
inductive Status
  | F
  | R
deriving DecidableEq

/-- One row of PartA_4's `Seats` table (PartA_4.py, class Seat). -/
structure Seat where
  seat_id : String
  row : String
  position : Nat
  type : PartB.SeatType
  status : Option Status
deriving DecidableEq

/-- PartA_4's database state: the seat table in insertion order. -/
structure DB where
  seats : List Seat
deriving DecidableEq

/-- The seat lookup shared by PartA_4's operations:
`query(Seat).filter_by(seat_id=seat_id).first()` on the normalized
(`.strip().upper()`) input. -/
def find_seat (db : DB) (input : String) : Option Seat :=
  db.seats.find? (fun s => decide (s.seat_id = PartB.pyUpper (PartB.pyStrip input)))

/-- Outcome of PartA_4's `free_seat`, read off the printed messages. -/
inductive FreeOutcome
  | invalidSeat
  | notASeat
  | notBooked
  | freed (seat_id : String)
deriving DecidableEq

/-- PartA_4's `free_seat` (PartA_4.py lines 117-130): look the seat up by id;
reject a missing id, a non-seat position, and a seat whose status is `F`;
otherwise set the status back to `F`. -/
def free_seat (db : DB) (input : String) : DB × FreeOutcome :=
  let seat_id := PartB.pyUpper (PartB.pyStrip input)
  match db.seats.find? (fun s => decide (s.seat_id = seat_id)) with
  | none => (db, FreeOutcome.invalidSeat)
  | some seat =>
    if seat.type = PartB.SeatType.seat then
      if seat.status = some Status.F then (db, FreeOutcome.notBooked)
      else
        ({ seats := PartB.updateFirst (fun s => decide (s.seat_id = seat_id))
              (fun s => { s with status := some Status.F }) db.seats },
         FreeOutcome.freed seat.seat_id)
    else (db, FreeOutcome.notASeat)

end PartA4

namespace PartB

/-- A successful `find?` splits the list into a prefix of non-matches, the
found element, and the rest. -/
theorem find_decomposition {α : Type} (p : α → Bool) :
    ∀ {l : List α} {a : α}, l.find? p = some a →
      ∃ pre post, l = pre ++ a :: post ∧ (∀ x ∈ pre, p x = false) ∧ p a = true := by
  intro l
  induction l with
  | nil => intro a h; simp [List.find?] at h
  | cons s rest ih =>
    intro a h
    by_cases hs : p s
    · refine ⟨[], rest, ?_, ?_, ?_⟩ <;> simp_all [List.find?]
    · rw [List.find?] at h
      simp only [hs] at h
      obtain ⟨pre, post, hsplit, hpre, ha⟩ := ih h
      refine ⟨s :: pre, post, by simp [hsplit], ?_, ha⟩
      intro x hx
      rcases List.mem_cons.mp hx with hx | hx
      · subst hx; simpa using hs
      · exact hpre x hx

/-- `find?` over a list whose prefix has no match returns the first match. -/
theorem find_append_cons {α : Type} (p : α → Bool) :
    ∀ (pre : List α) (a : α) (post : List α), (∀ x ∈ pre, p x = false) → p a = true →
      (pre ++ a :: post).find? p = some a := by
  intro pre
  induction pre with
  | nil => intro a post _ ha; simp [List.find?, ha]
  | cons s rest ih =>
    intro a post hpre ha
    have hs : p s = false := hpre s (List.mem_cons_self s rest)
    simp only [List.cons_append, List.find?, hs]
    exact ih a post (fun x hx => hpre x (List.mem_cons_of_mem s hx)) ha

/-- `updateFirst` over a list whose prefix has no match rewrites the first
match and nothing else. -/
theorem updateFirst_append {α : Type} (p : α → Bool) (g : α → α) :
    ∀ (pre : List α) (a : α) (post : List α), (∀ x ∈ pre, p x = false) → p a = true →
      updateFirst p g (pre ++ a :: post) = pre ++ g a :: post := by
  intro pre
  induction pre with
  | nil => intro a post _ ha; simp [updateFirst, ha]
  | cons s rest ih =>
    intro a post hpre ha
    have hs : p s = false := hpre s (List.mem_cons_self s rest)
    simp only [List.cons_append, updateFirst, hs]
    simp only [Bool.false_eq_true, if_false, List.cons.injEq, true_and]
    exact ih a post (fun x hx => hpre x (List.mem_cons_of_mem s hx)) ha

/-- A pointwise property closed under the rewriting function on matches is
preserved by `updateFirst`. -/
theorem updateFirst_forall {α : Type} (p : α → Bool) (g : α → α) (P : α → Prop)
    (hg : ∀ x, P x → p x = true → P (g x)) :
    ∀ l : List α, (∀ x ∈ l, P x) → ∀ x ∈ updateFirst p g l, P x := by
  intro l
  induction l with
  | nil => intro _ x hx; simp [updateFirst] at hx
  | cons s rest ih =>
    intro hl x hx
    by_cases hs : p s
    · simp only [updateFirst, hs, if_true] at hx
      rcases List.mem_cons.mp hx with hx | hx
      · subst hx; exact hg s (hl s (List.mem_cons_self s rest)) hs
      · exact hl x (List.mem_cons_of_mem s hx)
    · simp only [updateFirst, hs] at hx
      simp only [Bool.false_eq_true, if_false] at hx
      rcases List.mem_cons.mp hx with hx | hx
      · subst hx; exact hl x (List.mem_cons_self x rest)
      · exact ih (fun y hy => hl y (List.mem_cons_of_mem s hy)) x hx

/-- Unfolding of the availability filter. -/
theorem seatMatches_iff (c : SeatCategory) (s : Seat) :
    seatMatches c s = true ↔ (s.category = some c ∧ s.booking_reference = none) := by
  simp [seatMatches]

/-- Unfolding of the reference filter. -/
theorem holdsRef_iff (reference : String) (s : Seat) :
    holdsRef reference s = true ↔ s.booking_reference = some reference := by
  simp [holdsRef]

/-- Every record built by the initialization loop satisfies the seat
invariants: seats get a category, non-seats get neither category nor
reference. -/
theorem seatInv_mkSeat (row_label : String) (idx : Nat) (cell : String) :
    SeatInv (mkSeat row_label idx cell) := by
  by_cases h : cellType cell = SeatType.seat <;>
    simp [SeatInv, mkSeat, h]

/-- Every record produced from one CSV row is some `mkSeat`. -/
theorem mem_initRowFrom (row_label : String) :
    ∀ (cells : List String) (i : Nat) (x : Seat), x ∈ initRowFrom row_label i cells →
      ∃ idx cell, x = mkSeat row_label idx cell := by
  intro cells
  induction cells with
  | nil => intro i x hx; simp [initRowFrom] at hx
  | cons cell rest ih =>
    intro i x hx
    rcases List.mem_cons.mp hx with hx | hx
    · exact ⟨i, cell, hx⟩
    · exact ih (i + 1) x hx

/-- Every record produced by initialization is some `mkSeat`. -/
theorem mem_initSeats (csv : List (String × List String)) (x : Seat)
    (hx : x ∈ initSeats csv) : ∃ label idx cell, x = mkSeat label idx cell := by
  simp only [initSeats, List.mem_flatten, List.mem_map] at hx
  obtain ⟨l, ⟨r, _, rfl⟩, hxl⟩ := hx
  obtain ⟨idx, cell, rfl⟩ := mem_initRowFrom r.1 r.2 1 x hxl
  exact ⟨r.1, idx, cell, rfl⟩

/-- Initialization establishes the seat-map invariant. -/
theorem mapInv_initDB (csv : List (String × List String)) (db : DB)
    (hdb : MapInv db) : MapInv (initialize_database csv db) := by
  unfold initialize_database
  by_cases h0 : db.seats.length = 0
  · simp only [h0, if_true]
    by_cases hnd : ((initSeats csv).map Seat.seat_id).Nodup
    · simp only [hnd, if_true]
      intro s hs
      obtain ⟨label, idx, cell, rfl⟩ := mem_initSeats csv s hs
      exact seatInv_mkSeat label idx cell
    · simpa [hnd] using hdb
  · simpa [h0] using hdb

/-- `book_seat` preserves the seat-map invariant. -/
theorem mapInv_book (db : DB) (c : SeatCategory)
    (passport first_name last_name reference : String) (hdb : MapInv db) :
    MapInv (book_seat db c passport first_name last_name reference).1 := by
  unfold book_seat
  cases hfind : findAvailableByCategory db.seats c with
  | none => simpa using hdb
  | some target =>
    by_cases hc : bookCommitOk db reference
    · simp only [hfind, hc, if_true]
      intro s hs
      refine updateFirst_forall (seatMatches c)
        (fun s => { s with booking_reference := some reference }) SeatInv ?_
        db.seats hdb s hs
      intro x hxinv hxp
      obtain ⟨hcat, _⟩ := (seatMatches_iff c x).mp hxp
      have hxseat : x.type = SeatType.seat := by
        by_contra hne
        have := (hxinv.1 hne).2
        rw [this] at hcat
        exact Option.noConfusion hcat
      constructor
      · intro hne; exact absurd hxseat hne
      · intro _; simp [hcat]
    · simpa [hfind, hc] using hdb

/-- `free_seat` preserves the seat-map invariant. -/
theorem mapInv_free (db : DB) (input : String) (hdb : MapInv db) :
    MapInv (free_seat db input).1 := by
  unfold free_seat
  dsimp only
  split
  · exact hdb
  · split
    · intro s hs
      refine updateFirst_forall (holdsRef (pyUpper (pyStrip input)))
        (fun s => { s with booking_reference := none }) SeatInv ?_
        db.seats hdb s hs
      intro x hxinv _
      constructor
      · intro hne; exact ⟨rfl, (hxinv.1 hne).2⟩
      · intro hx; exact hxinv.2 hx
    · exact hdb

/-- Every operation of the CLI loop preserves the seat-map invariant. -/
theorem mapInv_runOps : ∀ (ops : List Op) (db : DB), MapInv db → MapInv (runOps db ops) := by
  intro ops
  induction ops with
  | nil => intro db hdb; simpa [runOps] using hdb
  | cons op rest ih =>
    intro db hdb
    have hstep : MapInv (applyOp db op) := by
      cases op with
      | book c p f l r => exact mapInv_book db c p f l r hdb
      | free input => exact mapInv_free db input hdb
    simpa [runOps] using ih (applyOp db op) hstep

/-- The empty session state. -/
def emptyDB : DB := ⟨[], []⟩

/-- C4: in every reachable seat-map state (initialization followed by any
sequence of book/free operations), a non-seat position has neither a booking
reference nor a category, and a seat position always has a category
(invariants I1 and I2 with the inverse of I2). -/
theorem claim4_reachable_invariants (csv : List (String × List String)) (ops : List Op)
    (s : Seat) (hs : s ∈ (runOps (initialize_database csv emptyDB) ops).seats) :
    (s.type ≠ SeatType.seat → s.booking_reference = none ∧ s.category = none) ∧
    (s.type = SeatType.seat → s.category ≠ none) :=
  mapInv_runOps ops (initialize_database csv emptyDB)
    (mapInv_initDB csv emptyDB (by intro x hx; simp [emptyDB] at hx)) s hs

/-- Witness for C4 at a concrete layout, one booking, and the aisle cell. -/
theorem claim4_witness :
    ((mkSeat ("A") 2 ("X")).type ≠ SeatType.seat →
      (mkSeat ("A") 2 ("X")).booking_reference = none ∧ (mkSeat ("A") 2 ("X")).category = none) ∧
    ((mkSeat ("A") 2 ("X")).type = SeatType.seat → (mkSeat ("A") 2 ("X")).category ≠ none) :=
  claim4_reachable_invariants [(("A" : String), [("1" : String), ("X" : String)])]
    [Op.book SeatCategory.window ("P") ("Jo") ("Doe") ("AAAAAAAA")]
    (mkSeat ("A") 2 ("X")) (by decide)

/-- C1: booking is atomic.  Every run of `book_seat` either reports success
and leaves both the reference on a seat and a Traveler record keyed by that
reference in the committed state, or leaves the session state exactly as it
was (in particular the duplicate-reference rollback restores the pre-state,
so no orphaned Traveler record survives a failed commit). -/
theorem claim1_booking_atomic (db : DB) (c : SeatCategory)
    (passport first_name last_name reference : String) :
    (∃ sid,
      (book_seat db c passport first_name last_name reference).2 =
        BookOutcome.booked sid reference ∧
      (∃ s ∈ (book_seat db c passport first_name last_name reference).1.seats,
        s.booking_reference = some reference) ∧
      (∃ t ∈ (book_seat db c passport first_name last_name reference).1.travelers,
        t.booking_reference = reference)) ∨
    ((book_seat db c passport first_name last_name reference).1 = db ∧
      ∀ sid, (book_seat db c passport first_name last_name reference).2 ≠
        BookOutcome.booked sid reference) := by
  unfold book_seat
  cases hfind : findAvailableByCategory db.seats c with
  | none => right; simp
  | some target =>
    by_cases hc : bookCommitOk db reference
    · left
      refine ⟨target.seat_id, by simp [hc], ?_, ?_⟩
      · obtain ⟨pre, post, hsplit, hpre, hp⟩ := find_decomposition (seatMatches c) hfind
        rw [hsplit]
        simp only [hc, if_true]
        rw [updateFirst_append (seatMatches c) _ pre target post hpre hp]
        exact ⟨{ target with booking_reference := some reference },
          by simp, rfl⟩
      · simp only [hc, if_true]
        exact ⟨mkTraveler reference passport first_name last_name target,
          List.mem_append_right _ (List.mem_singleton_self _), rfl⟩
    · right; simp [hc]

/-- Witness for C1 (trivially closed: the statement has no hypotheses, so we
instantiate it at a concrete state and booking). -/
theorem claim1_witness :
    (∃ sid,
      (book_seat (initialize_database [(("A" : String), [("1" : String)])] emptyDB)
          SeatCategory.window ("P") ("Jo") ("Doe") ("AAAAAAAA")).2 =
        BookOutcome.booked sid ("AAAAAAAA") ∧
      (∃ s ∈ (book_seat (initialize_database [(("A" : String), [("1" : String)])] emptyDB)
          SeatCategory.window ("P") ("Jo") ("Doe") ("AAAAAAAA")).1.seats,
        s.booking_reference = some ("AAAAAAAA")) ∧
      (∃ t ∈ (book_seat (initialize_database [(("A" : String), [("1" : String)])] emptyDB)
          SeatCategory.window ("P") ("Jo") ("Doe") ("AAAAAAAA")).1.travelers,
        t.booking_reference = ("AAAAAAAA" : String))) ∨
    ((book_seat (initialize_database [(("A" : String), [("1" : String)])] emptyDB)
        SeatCategory.window ("P") ("Jo") ("Doe") ("AAAAAAAA")).1 =
      initialize_database [(("A" : String), [("1" : String)])] emptyDB ∧
      ∀ sid, (book_seat (initialize_database [(("A" : String), [("1" : String)])] emptyDB)
          SeatCategory.window ("P") ("Jo") ("Doe") ("AAAAAAAA")).2 ≠
        BookOutcome.booked sid ("AAAAAAAA")) :=
  claim1_booking_atomic (initialize_database [(("A" : String), [("1" : String)])] emptyDB)
    SeatCategory.window ("P") ("Jo") ("Doe") ("AAAAAAAA")

/-- Every alphabet position yields a character of the reference alphabet. -/
theorem charAt_mem : ∀ i : Fin 36, charAt i ∈ reference_chars := by
  decide

/-- Every candidate drawn by `random.choices(chars, k=8)` has length 8. -/
theorem drawToString_length (d : Fin 8 → Fin 36) : (drawToString d).length = 8 := by
  simp [drawToString, String.length]

/-- Every character of a drawn candidate is in the reference alphabet. -/
theorem drawToString_chars (d : Fin 8 → Fin 36) :
    ∀ ch ∈ (drawToString d).toList, ch ∈ reference_chars := by
  intro ch hch
  simp only [drawToString, String.toList, List.mem_map] at hch
  obtain ⟨k, _, rfl⟩ := hch
  exact charAt_mem (d k)

/-- A negative uniqueness check means no seat holds the candidate. -/
theorem referenceTaken_false {seats : List Seat} {r : String}
    (h : referenceTaken seats r = false) : ∀ s ∈ seats, s.booking_reference ≠ some r := by
  intro s hs
  have hnone : seats.find? (fun s => decide (s.booking_reference = some r)) = none := by
    unfold referenceTaken at h
    cases hcase : seats.find? (fun s => decide (s.booking_reference = some r)) with
    | none => rfl
    | some x => rw [hcase] at h; simp at h
  have := List.find?_eq_none.mp hnone s hs
  simpa using this

/-- C3: every reference produced by `generate_booking_reference` is an
8-character string over the 36-symbol alphabet A-Z0-9, the uniqueness check
confirms no seat holds it at the moment it is returned, and therefore it can
never equal a reference currently held by a seat — in particular a second
call made while a first reference is live (written onto some seat) cannot
return that first reference again. -/
theorem claim3_generate_reference (fuel : Nat) (draws : Nat → Fin 8 → Fin 36)
    (seats : List Seat) (r : String)
    (h : generate_booking_reference fuel draws seats = some r) :
    r.length = 8 ∧ (∀ ch ∈ r.toList, ch ∈ reference_chars) ∧
    referenceTaken seats r = false ∧
    (∀ live, (∃ s ∈ seats, s.booking_reference = some live) → r ≠ live) := by
  induction fuel generalizing draws with
  | zero => simp [generate_booking_reference] at h
  | succ n ih =>
    rw [generate_booking_reference] at h
    by_cases htaken : referenceTaken seats (drawToString (draws 0))
    · rw [if_pos htaken] at h
      exact ih (fun k => draws (k + 1)) h
    · rw [if_neg htaken] at h
      obtain rfl : drawToString (draws 0) = r := Option.some.inj h
      have hfalse : referenceTaken seats (drawToString (draws 0)) = false :=
        Bool.eq_false_iff.mpr htaken
      refine ⟨drawToString_length _, drawToString_chars _, hfalse, ?_⟩
      rintro live ⟨s, hsmem, hsref⟩ rfl
      exact referenceTaken_false hfalse s hsmem hsref

/-- A concrete occupied seat used by the witness of C3. -/
def claim3WitnessSeat : Seat :=
  { seat_id := ("B1" : String), row := ("B" : String), position := 1,
    type := SeatType.seat, booking_reference := some ("BBBBBBBB"),
    category := some SeatCategory.middle }

/-- Witness for C3: one fresh draw against a state holding a different
reference. -/
theorem claim3_witness :
    (("AAAAAAAA" : String).length = 8 ∧
    (∀ ch ∈ ("AAAAAAAA" : String).toList, ch ∈ reference_chars) ∧
    referenceTaken [claim3WitnessSeat] ("AAAAAAAA") = false ∧
    (∀ live, (∃ s ∈ [claim3WitnessSeat], s.booking_reference = some live) →
      ("AAAAAAAA" : String) ≠ live)) :=
  claim3_generate_reference 1 (fun _ _ => 0) [claim3WitnessSeat] ("AAAAAAAA") (by decide)

/-- A layout whose CSV lists row F before row A; both window seats free. -/
def c2LayoutDB : DB :=
  initialize_database [(("F" : String), [("1" : String)]), (("A" : String), [("1" : String)])] emptyDB

/-- Counterexample to C2: the seat-selection query of `book_seat` has no
ORDER BY, so it returns the first available match in insertion (CSV) order.
On a layout that lists row F before row A it returns F1 even though A1 is an
available window seat strictly earlier in display order. -/
theorem claim2_counterexample :
    findAvailableByCategory c2LayoutDB.seats SeatCategory.window = some (mkSeat ("F") 1 ("1")) ∧
    mkSeat ("A") 1 ("1") ∈ c2LayoutDB.seats ∧
    seatMatches SeatCategory.window (mkSeat ("A") 1 ("1")) = true ∧
    mkSeat ("A") 1 ("1") ≠ mkSeat ("F") 1 ("1") ∧
    ¬ displayLT (mkSeat ("F") 1 ("1")) (mkSeat ("A") 1 ("1")) := by
  decide

/-- C2 (amended): `reserve_by_category` returns the first available seat of
the requested category in seat-table insertion order (the CSV loading
order), and returns no seat exactly when no available seat of that category
exists.  (On the standard layout, whose CSV lists rows in ascending label
order with ascending positions, insertion order coincides with display
order.) -/
theorem claim2_first_available_in_stored_order (seats : List Seat) (c : SeatCategory) :
    (∀ s, findAvailableByCategory seats c = some s →
      (s.category = some c ∧ s.booking_reference = none) ∧
      ∃ pre post, seats = pre ++ s :: post ∧
        ∀ t ∈ pre, ¬(t.category = some c ∧ t.booking_reference = none)) ∧
    (findAvailableByCategory seats c = none ↔
      ∀ t ∈ seats, ¬(t.category = some c ∧ t.booking_reference = none)) := by
  constructor
  · intro s h
    obtain ⟨pre, post, hsplit, hpre, hp⟩ := find_decomposition (seatMatches c) h
    refine ⟨(seatMatches_iff c s).mp hp, pre, post, hsplit, ?_⟩
    intro t ht hcontra
    have hfalse := hpre t ht
    rw [(seatMatches_iff c t).mpr hcontra] at hfalse
    exact Bool.true_eq_false.mp hfalse
  · unfold findAvailableByCategory
    rw [List.find?_eq_none]
    constructor
    · intro h t ht hc2
      exact (h t ht) ((seatMatches_iff c t).mpr hc2)
    · intro h t ht hp
      exact h t ht ((seatMatches_iff c t).mp hp)

/-- Witness for C2 (amended) at the concrete two-row layout: the returned
seat F1 is indeed the stored-order-first available window seat. -/
theorem claim2_witness :
    (∀ s, findAvailableByCategory c2LayoutDB.seats SeatCategory.window = some s →
      (s.category = some SeatCategory.window ∧ s.booking_reference = none) ∧
      ∃ pre post, c2LayoutDB.seats = pre ++ s :: post ∧
        ∀ t ∈ pre, ¬(t.category = some SeatCategory.window ∧ t.booking_reference = none)) ∧
    (findAvailableByCategory c2LayoutDB.seats SeatCategory.window = none ↔
      ∀ t ∈ c2LayoutDB.seats,
        ¬(t.category = some SeatCategory.window ∧ t.booking_reference = none)) :=
  claim2_first_available_in_stored_order c2LayoutDB.seats SeatCategory.window

/-- C10: during initialization, a bookable seat in a row whose label is
outside A-F falls into the `else` branch of the row-to-category table and is
assigned category middle; being available and middle-categorized, its
presence makes the middle-category selection of `book_seat` succeed. -/
theorem claim10_unconfigured_rows_middle (label : String) (idx : Nat) (cell : String)
    (hlabel : label ∉ status_rows) (hcell : cellType cell = SeatType.seat) :
    (mkSeat label idx cell).category = some SeatCategory.middle ∧
    (mkSeat label idx cell).booking_reference = none ∧
    ∀ seats : List Seat, mkSeat label idx cell ∈ seats →
      (findAvailableByCategory seats SeatCategory.middle).isSome = true := by
  simp only [status_rows, List.mem_cons, List.mem_singleton, not_or] at hlabel
  obtain ⟨h1, h2, h3, h4, h5, h6⟩ := hlabel
  have hcat : rowCategory label = SeatCategory.middle := by
    simp [rowCategory, h1, h2, h3, h4, h5, h6]
  have hmk : (mkSeat label idx cell).category = some SeatCategory.middle := by
    simp [mkSeat, hcell, hcat]
  have href : (mkSeat label idx cell).booking_reference = none := by
    simp [mkSeat]
  refine ⟨hmk, href, ?_⟩
  intro seats hmem
  have : ∃ x, x ∈ seats ∧ seatMatches SeatCategory.middle x = true :=
    ⟨mkSeat label idx cell, hmem, (seatMatches_iff _ _).mpr ⟨hmk, href⟩⟩
  simpa [findAvailableByCategory, List.find?_isSome] using this

/-- Witness for C10: a seat in row G. -/
theorem claim10_witness :
    (mkSeat ("G") 1 ("1")).category = some SeatCategory.middle ∧
    (mkSeat ("G") 1 ("1")).booking_reference = none ∧
    ∀ seats : List Seat, mkSeat ("G") 1 ("1") ∈ seats →
      (findAvailableByCategory seats SeatCategory.middle).isSome = true :=
  claim10_unconfigured_rows_middle ("G") 1 ("1") (by decide) (by decide)

/-- Full behaviour of `free_seat` on a state whose seat list splits around
the first (seat-typed) holder of the normalized reference: the traveler
records keyed by the reference are deleted, that one seat's reference is
cleared, everything else is untouched. -/
theorem free_seat_spec (db : DB) (r : String) (pre post : List Seat) (s : Seat)
    (hnorm : pyUpper (pyStrip r) = r)
    (hsplit : db.seats = pre ++ s :: post)
    (hs : s.booking_reference = some r)
    (hst : s.type = SeatType.seat)
    (hpre : ∀ x ∈ pre, x.booking_reference ≠ some r) :
    free_seat db r = ({ seats := pre ++ ({ s with booking_reference := none }) :: post,
                        travelers :=
                          db.travelers.filter (fun t => decide (t.booking_reference ≠ r)) },
      FreeOutcome.freed s.seat_id) := by
  have hpre2 : ∀ x ∈ pre, holdsRef r x = false := by
    intro x hx
    have := hpre x hx
    simp [holdsRef, this]
  have hsr : holdsRef r s = true := (holdsRef_iff r s).mpr hs
  unfold free_seat
  dsimp only
  rw [hnorm, hsplit]
  rw [find_append_cons (holdsRef r) pre s post hpre2 hsr]
  dsimp only
  rw [if_pos hst]
  rw [updateFirst_append (holdsRef r) _ pre s post hpre2 hsr]

/-- C7: frame property of freeing by reference.  When exactly one seat holds
the reference, `free_seat` clears that seat's reference, leaves every other
seat record unchanged (the prefix and suffix of the seat list are preserved
verbatim), deletes exactly the traveler records keyed by the reference, and
keeps every other traveler record. -/
theorem claim7_free_frame (db : DB) (r : String) (pre post : List Seat) (s : Seat)
    (hnorm : pyUpper (pyStrip r) = r)
    (hsplit : db.seats = pre ++ s :: post)
    (hs : s.booking_reference = some r)
    (hst : s.type = SeatType.seat)
    (hpre : ∀ x ∈ pre, x.booking_reference ≠ some r)
    (_hpost : ∀ x ∈ post, x.booking_reference ≠ some r) :
    free_seat db r = ({ seats := pre ++ ({ s with booking_reference := none }) :: post,
                        travelers :=
                          db.travelers.filter (fun t => decide (t.booking_reference ≠ r)) },
      FreeOutcome.freed s.seat_id) ∧
    (∀ t ∈ db.travelers, t.booking_reference ≠ r → t ∈ (free_seat db r).1.travelers) ∧
    (∀ t ∈ (free_seat db r).1.travelers, t.booking_reference ≠ r ∧ t ∈ db.travelers) := by
  have hmain := free_seat_spec db r pre post s hnorm hsplit hs hst hpre
  refine ⟨hmain, ?_, ?_⟩
  · intro t ht htr
    rw [hmain]
    exact List.mem_filter.mpr ⟨ht, by simpa using htr⟩
  · intro t ht
    rw [hmain] at ht
    obtain ⟨htmem, htpred⟩ := List.mem_filter.mp ht
    exact ⟨by simpa using htpred, htmem⟩

/-- A concrete one-seat, one-traveler state for the witness of C7. -/
def c7Seat : Seat :=
  { seat_id := ("A1" : String), row := ("A" : String), position := 1,
    type := SeatType.seat, booking_reference := some ("AAAAAAAA"),
    category := some SeatCategory.window }

/-- The traveler record of the C7 witness state. -/
def c7Trav : Traveler :=
  { booking_reference := ("AAAAAAAA" : String), passport_number := ("P" : String),
    first_name := ("J" : String), last_name := ("D" : String),
    seat_row := ("A" : String), seat_column := 1 }

/-- The C7 witness state. -/
def c7DB : DB := ⟨[c7Seat], [c7Trav]⟩

/-- Witness for C7: freeing the unique holder of the reference. -/
theorem claim7_witness :
    free_seat c7DB ("AAAAAAAA") =
      ({ seats := [] ++ ({ c7Seat with booking_reference := none }) :: [],
         travelers := c7DB.travelers.filter
           (fun t => decide (t.booking_reference ≠ ("AAAAAAAA" : String))) },
       FreeOutcome.freed c7Seat.seat_id) ∧
    (∀ t ∈ c7DB.travelers, t.booking_reference ≠ ("AAAAAAAA" : String) →
      t ∈ (free_seat c7DB ("AAAAAAAA")).1.travelers) ∧
    (∀ t ∈ (free_seat c7DB ("AAAAAAAA")).1.travelers,
      t.booking_reference ≠ ("AAAAAAAA" : String) ∧ t ∈ c7DB.travelers) :=
  claim7_free_frame c7DB ("AAAAAAAA") [] [] c7Seat (by decide) (by decide) (by decide)
    (by decide) (by decide) (by decide)

/-- C5: round-trip law.  A successful booking (which mints reference `r` and
reports the booked seat id) followed by `free_seat` with that reference frees
exactly that seat — `free_seat` succeeds on it, the seat is available again
(`booking_reference` cleared, `check_availability` would report available),
no seat holds `r` any more, and no Traveler record keyed by `r` survives. -/
theorem claim5_roundtrip (db : DB) (c : SeatCategory)
    (passport first_name last_name r : String) (db1 : DB) (sid : String)
    (hinv : MapInv db)
    (hnorm : pyUpper (pyStrip r) = r)
    (hbook : book_seat db c passport first_name last_name r = (db1, BookOutcome.booked sid r)) :
    ∃ db2, free_seat db1 r = (db2, FreeOutcome.freed sid) ∧
      (∃ s ∈ db2.seats, s.seat_id = sid ∧ s.booking_reference = none ∧
        seat_is_available s = true) ∧
      (∀ s2 ∈ db2.seats, s2.booking_reference ≠ some r) ∧
      (∀ t ∈ db2.travelers, t.booking_reference ≠ r) := by
  unfold book_seat at hbook
  cases hfind : findAvailableByCategory db.seats c with
  | none => simp [hfind] at hbook
  | some target =>
    simp only [hfind] at hbook
    by_cases hc : bookCommitOk db r
    · rw [if_pos hc] at hbook
      have hdb1 : db1 = { seats :=
                            updateFirst (seatMatches c)
                              (fun s => ({ s with booking_reference := some r })) db.seats,
                          travelers :=
                            db.travelers ++
                              [mkTraveler r passport first_name last_name target] } :=
        ((Prod.ext_iff.mp hbook).1).symm
      have hsid : sid = target.seat_id := by
        have := (Prod.ext_iff.mp hbook).2
        cases this
        rfl
      obtain ⟨pre, post, hsplit, hpreM, hp⟩ := find_decomposition (seatMatches c) hfind
      obtain ⟨hcat, hrefnone⟩ := (seatMatches_iff c target).mp hp
      have hmemt : target ∈ db.seats := by
        rw [hsplit]
        exact List.mem_append_right pre (List.mem_cons_self target post)
      have htype : target.type = SeatType.seat := by
        by_contra hne
        have := ((hinv target hmemt).1 hne).2
        rw [this] at hcat
        exact Option.noConfusion hcat
      obtain ⟨htravfree, hseatsfree⟩ := of_decide_eq_true hc
      have hpre2 : ∀ x ∈ pre, x.booking_reference ≠ some r := by
        intro x hx
        exact hseatsfree x (by rw [hsplit]; exact List.mem_append_left _ hx)
      have hpost2 : ∀ x ∈ post, x.booking_reference ≠ some r := by
        intro x hx
        exact hseatsfree x
          (by rw [hsplit]; exact List.mem_append_right pre (List.mem_cons_of_mem target hx))
      have hseats1 : db1.seats =
          pre ++ { target with booking_reference := some r } :: post := by
        rw [hdb1]
        show updateFirst (seatMatches c)
          (fun s => ({ s with booking_reference := some r })) db.seats =
          pre ++ ({ target with booking_reference := some r }) :: post
        rw [hsplit]
        exact updateFirst_append (seatMatches c) _ pre target post hpreM hp
      have hfree := free_seat_spec db1 r pre post
        { target with booking_reference := some r } hnorm hseats1 rfl htype hpre2
      refine ⟨(free_seat db1 r).1, ?_, ?_, ?_, ?_⟩
      · rw [hfree, hsid]
      · refine ⟨{ target with booking_reference := none }, ?_, ?_, rfl, ?_⟩
        · rw [hfree]
          exact List.mem_append_right pre (List.mem_cons_self _ post)
        · rw [hsid]
        · simp [seat_is_available, refTruthy, htype]
      · intro s2 hs2
        rw [hfree] at hs2
        rcases List.mem_append.mp hs2 with hx | hx
        · exact hpre2 s2 hx
        · rcases List.mem_cons.mp hx with hx | hx
          · rw [hx]; simp
          · exact hpost2 s2 hx
      · intro t ht
        rw [hfree] at ht
        obtain ⟨_, htpred⟩ := List.mem_filter.mp ht
        simpa using htpred
    · rw [if_neg hc] at hbook
      simp at hbook

/-- The single-seat layout used by the C5 witness. -/
def c5DB0 : DB := initialize_database [(("A" : String), [("1" : String)])] emptyDB

/-- The C5 witness state after the booking. -/
def c5DB1 : DB := (book_seat c5DB0 SeatCategory.window ("P") ("J") ("D") ("AAAAAAAA")).1

/-- Witness for C5: book the only window seat, then free it by reference. -/
theorem claim5_witness :
    ∃ db2, free_seat c5DB1 ("AAAAAAAA") = (db2, FreeOutcome.freed ("A1")) ∧
      (∃ s ∈ db2.seats, s.seat_id = ("A1" : String) ∧ s.booking_reference = none ∧
        seat_is_available s = true) ∧
      (∀ s2 ∈ db2.seats, s2.booking_reference ≠ some ("AAAAAAAA")) ∧
      (∀ t ∈ db2.travelers, t.booking_reference ≠ ("AAAAAAAA" : String)) :=
  claim5_roundtrip c5DB0 SeatCategory.window ("P") ("J") ("D") ("AAAAAAAA") c5DB1 ("A1")
    (by decide) (by decide) (by decide)

/-- C6: releasing something that is not currently reserved fails and mutates
nothing.  In PartB, `free_seat` on a reference held by no seat reports an
invalid reference and returns the state unchanged; in PartA_4, `free_seat` on
a seat whose status is `F` reports not-booked and returns the state
unchanged. -/
theorem claim6_release_not_reserved (db : DB) (input : String)
    (dbA : PartA4.DB) (inputA : String) (st : PartA4.Seat)
    (hB : ∀ s ∈ db.seats, s.booking_reference ≠ some (pyUpper (pyStrip input)))
    (hA : PartA4.find_seat dbA inputA = some st)
    (hAtype : st.type = SeatType.seat)
    (hAfree : st.status = some PartA4.Status.F) :
    free_seat db input = (db, FreeOutcome.invalidReference) ∧
    PartA4.free_seat dbA inputA = (dbA, PartA4.FreeOutcome.notBooked) := by
  constructor
  · unfold free_seat
    dsimp only
    have hnone : db.seats.find? (holdsRef (pyUpper (pyStrip input))) = none := by
      rw [List.find?_eq_none]
      intro x hx
      simp only [holdsRef, decide_eq_true_eq]
      exact hB x hx
    rw [hnone]
  · have hA2 := hA
    unfold PartA4.find_seat at hA2
    unfold PartA4.free_seat
    dsimp only
    rw [hA2]
    dsimp only
    rw [if_pos hAtype, if_pos hAfree]

/-- PartB state of the C6 witness: one free seat, nobody holds the queried
reference. -/
def c6DBB : DB := initialize_database [(("A" : String), [("1" : String)])] emptyDB

/-- PartA_4 seat of the C6 witness: a free (status `F`) seat. -/
def c6SeatA : PartA4.Seat :=
  { seat_id := ("A1" : String), row := ("A" : String), position := 1,
    type := SeatType.seat, status := some PartA4.Status.F }

/-- PartA_4 state of the C6 witness. -/
def c6DBA : PartA4.DB := ⟨[c6SeatA]⟩

/-- Witness for C6. -/
theorem claim6_witness :
    free_seat c6DBB ("ZZZZZZZZ") = (c6DBB, FreeOutcome.invalidReference) ∧
    PartA4.free_seat c6DBA ("A1") = (c6DBA, PartA4.FreeOutcome.notBooked) :=
  claim6_release_not_reserved c6DBB ("ZZZZZZZZ") c6DBA ("A1") c6SeatA
    (by decide) (by decide) (by decide) (by decide)

/-- A layout with a bookable seat in row G (outside the hard-coded grid
rows). -/
def c8db : DB := initialize_database [(("G" : String), [("1" : String)])] emptyDB

/-- Counterexample to C8: `show_booking_status` iterates over the hard-coded
row list A-F, so a seat map containing a row G seat renders six empty rows
and never renders row G — it does not render every row of the seat map. -/
theorem claim8_counterexample :
    (∃ s ∈ c8db.seats, s.row = ("G" : String) ∧ s.type = SeatType.seat) ∧
    show_booking_status c8db =
      [(("A" : String), ([] : List String)), (("B" : String), []), (("C" : String), []),
        (("D" : String), []), (("E" : String), []), (("F" : String), [])] := by
  decide

instance : IsTotal Seat (fun a b : Seat => a.position ≤ b.position) :=
  ⟨fun a b => Nat.le_total a.position b.position⟩

instance : IsTrans Seat (fun a b : Seat => a.position ≤ b.position) :=
  ⟨fun _ _ _ hab hbc => Nat.le_trans hab hbc⟩

/-- The cell mapping exactly as the specification words it: blank for an
aisle, `S` for storage, and for a seat `R` when a booking reference is
present, `F` otherwise. -/
def specCellSymbol (s : Seat) : String :=
  match s.type with
  | SeatType.aisle => " "
  | SeatType.storage => "S"
  | SeatType.seat => if s.booking_reference = none then "F" else "R"

/-- The code's cell rendering agrees with the specification's mapping on
every seat whose stored reference is not the empty string (the code tests
Python truthiness, which the empty string would fail). -/
theorem seatSymbol_eq_spec (s : Seat) (h : s.booking_reference ≠ some ("" : String)) :
    seatSymbol s = specCellSymbol s := by
  cases hty : s.type with
  | aisle => simp [seatSymbol, specCellSymbol, hty]
  | storage => simp [seatSymbol, specCellSymbol, hty]
  | seat =>
    cases href : s.booking_reference with
    | none => simp [seatSymbol, specCellSymbol, hty, refTruthy, href]
    | some v =>
      have hv : ¬(v = ("" : String)) := fun hveq => h (hveq ▸ href)
      simp [seatSymbol, specCellSymbol, hty, refTruthy, href, hv]

/-- C8 (amended): `show_booking_status` renders exactly the six fixed rows
A-F, in that order (rows with any other label are omitted); within each
rendered row the cells are that row's positions in ascending position order,
mapped to blank for aisle, `S` for storage, `R` for reserved and `F` for
free. -/
theorem claim8_grid (db : DB)
    (h : ∀ s ∈ db.seats, s.booking_reference ≠ some ("" : String)) :
    ((show_booking_status db).map Prod.fst = status_rows) ∧
    (∀ p ∈ show_booking_status db,
      ∃ cells : List Seat,
        cells.Perm (db.seats.filter (fun s => decide (s.row = p.1))) ∧
        List.Sorted (fun a b : Seat => a.position ≤ b.position) cells ∧
        p.2 = cells.map specCellSymbol) := by
  constructor
  · simp [show_booking_status, List.map_map, Function.comp_def]
  · intro p hp
    simp only [show_booking_status, List.mem_map] at hp
    obtain ⟨r, hr, rfl⟩ := hp
    refine ⟨sortByPosition (db.seats.filter (fun s => decide (s.row = r))), ?_, ?_, ?_⟩
    · exact List.perm_insertionSort _ _
    · exact List.sorted_insertionSort _ _
    · show (sortByPosition _).map seatSymbol = _
      apply List.map_congr_left
      intro s hs
      apply seatSymbol_eq_spec
      apply h
      have hsf : s ∈ db.seats.filter (fun s => decide (s.row = r)) :=
        (List.perm_insertionSort _ _).mem_iff.mp hs
      exact List.mem_of_mem_filter hsf

/-- Witness for C8 (amended) on the empty seat map. -/
theorem claim8_witness :
    ((show_booking_status emptyDB).map Prod.fst = status_rows) ∧
    (∀ p ∈ show_booking_status emptyDB,
      ∃ cells : List Seat,
        cells.Perm (emptyDB.seats.filter (fun s => decide (s.row = p.1))) ∧
        List.Sorted (fun a b : Seat => a.position ≤ b.position) cells ∧
        p.2 = cells.map specCellSymbol) :=
  claim8_grid emptyDB (by decide)

/-- The single-seat layout used by C9. -/
def c9db : DB := initialize_database [(("A" : String), [("1" : String)])] emptyDB

/-- Counterexample to C9: `book_seat` performs no validation of the traveler
fields — a booking with empty passport number, first name and last name
succeeds and persists a Traveler record whose three identity fields are all
empty strings. -/
theorem claim9_counterexample :
    (book_seat c9db SeatCategory.window ("") ("") ("") ("AAAAAAAA")).2 =
      BookOutcome.booked ("A1") ("AAAAAAAA") ∧
    (∃ t ∈ (book_seat c9db SeatCategory.window ("") ("") ("") ("AAAAAAAA")).1.travelers,
      t.passport_number = ("" : String) ∧ t.first_name = ("" : String) ∧
      t.last_name = ("" : String)) := by
  decide

/-- C9 (amended): every Traveler record created by a successful booking
carries the submitted passport number, first name and last name
whitespace-trimmed, keyed by the minted reference; the fields are always
present as strings but may be empty — emptiness is not rejected. -/
theorem claim9_traveler_fields (db : DB) (c : SeatCategory)
    (passport first_name last_name reference : String) (db1 : DB) (sid : String)
    (hbook : book_seat db c passport first_name last_name reference =
      (db1, BookOutcome.booked sid reference)) :
    ∃ t ∈ db1.travelers, t.booking_reference = reference ∧
      t.passport_number = pyStrip passport ∧ t.first_name = pyStrip first_name ∧
      t.last_name = pyStrip last_name := by
  unfold book_seat at hbook
  cases hfind : findAvailableByCategory db.seats c with
  | none => simp [hfind] at hbook
  | some target =>
    simp only [hfind] at hbook
    by_cases hc : bookCommitOk db reference
    · rw [if_pos hc] at hbook
      have hdb1 : db1 = _ := ((Prod.ext_iff.mp hbook).1).symm
      subst hdb1
      exact ⟨mkTraveler reference passport first_name last_name target,
        List.mem_append_right _ (List.mem_singleton_self _), rfl, rfl, rfl, rfl⟩
    · rw [if_neg hc] at hbook
      simp at hbook

/-- The C9-witness state after booking with non-empty fields. -/
def c9db1 : DB := (book_seat c9db SeatCategory.window (" P ") ("J") ("D") ("AAAAAAAA")).1

/-- Witness for C9 (amended): the stored passport number is the trimmed
input. -/
theorem claim9_witness :
    ∃ t ∈ c9db1.travelers, t.booking_reference = ("AAAAAAAA" : String) ∧
      t.passport_number = pyStrip (" P ") ∧ t.first_name = pyStrip ("J") ∧
      t.last_name = pyStrip ("D") :=
  claim9_traveler_fields c9db SeatCategory.window (" P ") ("J") ("D") ("AAAAAAAA")
    c9db1 ("A1") (by decide)

end PartB
